import Mathlib

/-!
Shallow embedding of `src/main.rs` of the leptos-ghpages repository.

The embedded core is `fetch_bathrooms` (src/main.rs:47-91):
  * a oneshot channel whose sender sits in `Arc<Mutex<Option<Sender>>>`;
    the geolocation success callback (lines 52-59) and error callback
    (lines 62-66) both `take()` the sender before sending, so at most one
    of them can settle the channel;
  * the environment accesses `window().unwrap()`,
    `navigator.geolocation().unwrap()` and
    `get_current_position_with_error_callback(..).unwrap()` (lines 68-73),
    each of which panics when the underlying capability is absent or the
    registration fails;
  * `receiver.await.unwrap()?` (line 78) propagates a `BathroomError`
    from the error callback through the return value;
  * the network stage (lines 82-88) formats a fixed Overpass query from
    the resolved coordinates, then calls `.send().await.unwrap()` and
    `.json::<OverpassResponse>().await.unwrap()`: transport failures and
    deserialization failures panic, and the HTTP status is never checked.

Modelling choices: Rust `f64` values are embedded as `ℚ` (none of the
verified properties depends on binary rounding); the `Display` rendering
of an `f64` into the query string is an explicit function parameter
`render : ℚ → String`; a Rust panic (any `.unwrap()` on a failing value)
is the explicit outcome `FetchOutcome.crashed`; JSON documents are an
inductive `Json` and serde's derived `Deserialize` for the three structs
is the executable parser `parseOverpassResponse`.
-/

namespace LeptosGhpages

/-- JSON values, as seen by `serde_json`.  Numbers are embedded as `ℚ`;
object fields are kept as an association list in document order. -/
inductive Json : Type where
  | null : Json
  | bool : Bool → Json
  | num : ℚ → Json
  | str : String → Json
  | arr : List Json → Json
  | obj : List (String × Json) → Json

/-- Field lookup in a JSON object (first occurrence); `none` on any
non-object or when the field is absent — serde then reports a
`missing field` error. -/
def Json.getField : Json → String → Option Json
  | .obj fields, key => fields.lookup key
  | _, _ => none

/-- Deserializing a Rust `String`: only a JSON string is accepted. -/
def parseString : Json → Option String
  | .str s => some s
  | _ => none

/-- Deserializing a Rust `f64`: any JSON number is accepted. -/
def parseF64 : Json → Option ℚ
  | .num q => some q
  | _ => none

/-- Deserializing a Rust `i64`: a JSON number that is integral and in
the `i64` range. -/
def parseI64 : Json → Option Int
  | .num q =>
    if q.den = 1 ∧ -(2 ^ 63) ≤ q.num ∧ q.num < 2 ^ 63 then some q.num else none
  | _ => none

/-- Deserializing `HashMap<String, String>`: a JSON object all of whose
values are strings, kept as an association list in document order. -/
def parseTags : Json → Option (List (String × String))
  | .obj fields => fields.mapM fun kv => (parseString kv.2).map fun s => (kv.1, s)
  | _ => none

/-- A JSON array, or `none`. -/
def parseJsonArray : Json → Option (List Json)
  | .arr xs => some xs
  | _ => none

/-- `struct Element` (src/main.rs:30-39).  The Rust field `type_field`
carries `#\x5bserde(rename = "type")\x5d`, so it deserializes from the
JSON key `"type"`. -/
structure Element : Type where
  id : Int
  lat : ℚ
  lon : ℚ
  tags : List (String × String)
  type_field : String
deriving DecidableEq, Repr

/-- `struct Osm3s` (src/main.rs:22-28); `timestamp_osm_base` carries an
explicit serde rename to itself. -/
structure Osm3s : Type where
  copyright : String
  timestamp_osm_base : String
deriving DecidableEq, Repr

/-- `struct OverpassResponse` (src/main.rs:13-20). -/
structure OverpassResponse : Type where
  elements : List Element
  generator : String
  osm3s : Osm3s
  version : ℚ
deriving DecidableEq, Repr

/-- serde's derived `Deserialize for Element`: every field is required
(no `#\x5bserde(default)\x5d` anywhere), unknown fields are ignored. -/
def parseElement (j : Json) : Option Element := do
  let idJ ← j.getField "id"
  let id ← parseI64 idJ
  let latJ ← j.getField "lat"
  let lat ← parseF64 latJ
  let lonJ ← j.getField "lon"
  let lon ← parseF64 lonJ
  let tagsJ ← j.getField "tags"
  let tags ← parseTags tagsJ
  let typeJ ← j.getField "type"
  let tf ← parseString typeJ
  pure { id := id, lat := lat, lon := lon, tags := tags, type_field := tf }

/-- serde's derived `Deserialize for Osm3s`. -/
def parseOsm3s (j : Json) : Option Osm3s := do
  let copyrightJ ← j.getField "copyright"
  let c ← parseString copyrightJ
  let tsJ ← j.getField "timestamp_osm_base"
  let ts ← parseString tsJ
  pure { copyright := c, timestamp_osm_base := ts }

/-- serde's derived `Deserialize for OverpassResponse`: all four fields
required, `elements` an array each of whose entries must deserialize as
an `Element`. -/
def parseOverpassResponse (j : Json) : Option OverpassResponse := do
  let elementsJ ← j.getField "elements"
  let elementsArr ← parseJsonArray elementsJ
  let elements ← elementsArr.mapM parseElement
  let generatorJ ← j.getField "generator"
  let g ← parseString generatorJ
  let osm3sJ ← j.getField "osm3s"
  let o ← parseOsm3s osm3sJ
  let versionJ ← j.getField "version"
  let v ← parseF64 versionJ
  pure { elements := elements, generator := g, osm3s := o, version := v }

/-- `enum BathroomError` (src/main.rs:41-45): a single variant whose
`thiserror` display text is "Failed to fetch bathrooms.". -/
inductive BathroomError : Type where
  | FetchBathroomsFailed : BathroomError
deriving DecidableEq, Repr

/-- The `#\x5berror("Failed to fetch bathrooms.")\x5d` display text. -/
def BathroomError.display : BathroomError → String
  | .FetchBathroomsFailed => "Failed to fetch bathrooms."

/-- One invocation of a geolocation callback: the success callback
receives a `Position` (embedded as its latitude/longitude pair, the only
data the closure reads), the error callback a `PositionError` (embedded
as its numeric code; the closure binds it as `_err` and never reads it). -/
inductive CallbackEvent : Type where
  | success : ℚ → ℚ → CallbackEvent
  | deviceError : Nat → CallbackEvent
deriving DecidableEq, Repr

/-- What a callback sends on the oneshot channel (src/main.rs:57 and 64):
`Ok((lat, lon))` from the success callback, `Err(FetchBathroomsFailed)`
from the error callback regardless of the device error. -/
def callbackPayload : CallbackEvent → Except BathroomError (ℚ × ℚ)
  | .success lat lon => .ok (lat, lon)
  | .deviceError _ => .error .FetchBathroomsFailed

/-- State of the oneshot channel together with its
`Arc<Mutex<Option<Sender>>>` gate: whether the sender is still in the
`Option` (not yet taken), and the value sent on the channel, if any. -/
structure ChannelState : Type where
  senderAvailable : Bool
  sent : Option (Except BathroomError (ℚ × ℚ))
deriving Repr

/-- Channel state right after `oneshot::channel()` (src/main.rs:48-49). -/
def initChannel : ChannelState := ⟨true, none⟩

/-- One callback invocation: `if let Some(sender) = ...lock().unwrap().take()`
(src/main.rs:56 and 63) — the send happens only if the sender had not
been taken yet, otherwise the invocation is a no-op. -/
def stepCallback (st : ChannelState) (ev : CallbackEvent) : ChannelState :=
  if st.senderAvailable then ⟨false, some (callbackPayload ev)⟩ else st

/-- The channel state after a sequence of callback invocations. -/
def runCallbacks (events : List CallbackEvent) : ChannelState :=
  events.foldl stepCallback initChannel

/-- Behavior of the network when the Overpass request is issued:
`transportError` makes `.send()` return `Err`, otherwise the service
answers with an HTTP status and a JSON body. -/
inductive NetworkBehavior : Type where
  | transportError : NetworkBehavior
  | response : Nat → Json → NetworkBehavior

/-- The ambient browser environment of one `fetch_bathrooms` call:
whether `window()` returns `Some`, whether `navigator.geolocation()`
returns `Ok`, whether `get_current_position_with_error_callback` returns
`Ok`, the sequence of callback invocations the device performs, and the
network's behavior. -/
structure GeoEnvironment : Type where
  windowPresent : Bool
  geolocationAvailable : Bool
  registrationOk : Bool
  events : List CallbackEvent
  network : NetworkBehavior

/-- Observable result of one `fetch_bathrooms` call: `ok` and `err` are
the two sides of the returned `Result`, `crashed` is a Rust panic (an
`.unwrap()` on a failing value; the string names the unwrapped call),
`suspended` is the indefinite suspension of `receiver.await` when no
callback ever fires. -/
inductive FetchOutcome : Type where
  | ok : OverpassResponse → FetchOutcome
  | err : BathroomError → FetchOutcome
  | crashed : String → FetchOutcome
  | suspended : FetchOutcome
deriving DecidableEq, Repr

/-- Result of a `fetch_bathrooms` call together with the URLs of the
network requests it issued. -/
structure FetchResult : Type where
  outcome : FetchOutcome
  requests : List String
deriving DecidableEq, Repr

/-- The Overpass URL built by `format!` at src/main.rs:82-84, with the
`\x7blat\x7d` and `\x7blon\x7d` holes replaced by the given renderings. -/
def buildQuery (lat lon : String) : String :=
  "https://overpass-api.de/api/interpreter?data=[out:json];node[\"amenity\"=\"toilets\"](around:2000," ++
    lat ++ "," ++ lon ++ ");out;"

/-- `fetch_bathrooms` (src/main.rs:47-91).  `render` is the `Display`
rendering of an `f64` used by `format!`.  Control flow, in source order:
`window().unwrap()`, `navigator.geolocation().unwrap()`,
`get_current_position_with_error_callback(..).unwrap()` — each panics if
its capability is absent or fails; then `receiver.await.unwrap()?`
observes the channel settled by the callbacks and propagates an `Err`;
on `Ok((lat, lon))` the Overpass request is issued, and both
`.send().await.unwrap()` and `.json().await.unwrap()` panic on failure
(the HTTP status is never inspected). -/
def fetch_bathrooms (render : ℚ → String) (env : GeoEnvironment) : FetchResult :=
  if env.windowPresent then
    if env.geolocationAvailable then
      if env.registrationOk then
        match (runCallbacks env.events).sent with
        | none => ⟨.suspended, []⟩
        | some (.error e) => ⟨.err e, []⟩
        | some (.ok (lat, lon)) =>
          let url := buildQuery (render lat) (render lon)
          match env.network with
          | .transportError => ⟨.crashed "send", [url]⟩
          | .response _status body =>
            match parseOverpassResponse body with
            | none => ⟨.crashed "json", [url]⟩
            | some r => ⟨.ok r, [url]⟩
      else ⟨.crashed "get_current_position_with_error_callback", []⟩
    else ⟨.crashed "geolocation", []⟩
  else ⟨.crashed "window", []⟩

/-- First stub element of spec §8 property 3, exactly as the spec gives
it: `\x7bid:1, lat:12.341, lon:56.781, tags:\x7bamenity:"toilets"\x7d\x7d`
— in particular with no `"type"` field. -/
def stubElement1 : Json :=
  .obj [("id", .num 1), ("lat", .num (mkRat 12341 1000)),
        ("lon", .num (mkRat 56781 1000)),
        ("tags", .obj [("amenity", .str "toilets")])]

/-- Second stub element of spec §8 property 3:
`\x7bid:2, lat:12.342, lon:56.782, tags:\x7b\x7d\x7d`, no `"type"` field. -/
def stubElement2 : Json :=
  .obj [("id", .num 2), ("lat", .num (mkRat 12342 1000)),
        ("lon", .num (mkRat 56782 1000)), ("tags", .obj [])]

/-- A stub response document containing exactly the two stub elements,
together with the full top-level envelope the schema requires. -/
def stubDoc : Json :=
  .obj [("version", .num (mkRat 6 10)), ("generator", .str "Overpass API"),
        ("osm3s", .obj [("timestamp_osm_base", .str "2023-01-01T00:00:00Z"),
                        ("copyright", .str "The data included in this document is from www.openstreetmap.org.")]),
        ("elements", .arr [stubElement1, stubElement2])]

/-- `stubElement1` with the `"type"` field the schema requires. -/
def stubElement1Typed : Json :=
  .obj [("id", .num 1), ("lat", .num (mkRat 12341 1000)),
        ("lon", .num (mkRat 56781 1000)),
        ("tags", .obj [("amenity", .str "toilets")]), ("type", .str "node")]

/-- `stubElement2` with the `"type"` field the schema requires. -/
def stubElement2Typed : Json :=
  .obj [("id", .num 2), ("lat", .num (mkRat 12342 1000)),
        ("lon", .num (mkRat 56782 1000)), ("tags", .obj []),
        ("type", .str "node")]

/-- `stubDoc` with `"type"` fields added to both elements. -/
def stubDocTyped : Json :=
  .obj [("version", .num (mkRat 6 10)), ("generator", .str "Overpass API"),
        ("osm3s", .obj [("timestamp_osm_base", .str "2023-01-01T00:00:00Z"),
                        ("copyright", .str "The data included in this document is from www.openstreetmap.org.")]),
        ("elements", .arr [stubElement1Typed, stubElement2Typed])]

/-- Environment of spec §8 property 3: device yields `(12.34, 56.78)`
and the network answers 200 with `stubDoc` (elements as the spec states
them, without `"type"`). -/
def stubEnv : GeoEnvironment :=
  ⟨true, true, true, [.success (mkRat 1234 100) (mkRat 5678 100)],
   .response 200 stubDoc⟩

/-- Same environment, but the network answers with `stubDocTyped`. -/
def stubEnvTyped : GeoEnvironment :=
  ⟨true, true, true, [.success (mkRat 1234 100) (mkRat 5678 100)],
   .response 200 stubDocTyped⟩

/-- Environment with a healthy browser and device but a failing network
transport. -/
def transportFailEnv : GeoEnvironment :=
  ⟨true, true, true, [.success (mkRat 1234 100) (mkRat 5678 100)],
   .transportError⟩

/-- Environment in which the device reports a geolocation error
(code 1, permission denied). -/
def deviceErrorEnv : GeoEnvironment :=
  ⟨true, true, true, [.deviceError 1], .transportError⟩

/-- Environment whose navigator has no geolocation capability. -/
def noGeolocationEnv : GeoEnvironment :=
  ⟨true, false, true, [], .transportError⟩

/-- Environment in which registering the position request fails. -/
def registrationFailEnv : GeoEnvironment :=
  ⟨true, true, false, [.deviceError 1], .transportError⟩

/-- Environment with a negative fractional latitude `-12.5` and
fractional longitude `56.78`, network healthy. -/
def negativeCoordEnv : GeoEnvironment :=
  ⟨true, true, true, [.success (mkRat (-125) 10) (mkRat 5678 100)],
   .response 200 stubDocTyped⟩

/-- A concrete rendering of `ℚ` used to instantiate `render` in closed
statements. -/
def renderRat (q : ℚ) : String := toString q.num ++ "/" ++ toString q.den

/-- The `OverpassResponse` that `stubDocTyped` deserializes to. -/
def stubResponseParsed : OverpassResponse :=
  { elements :=
      [{ id := 1, lat := mkRat 12341 1000, lon := mkRat 56781 1000,
         tags := [("amenity", "toilets")], type_field := "node" },
       { id := 2, lat := mkRat 12342 1000, lon := mkRat 56782 1000,
         tags := [], type_field := "node" }],
    generator := "Overpass API",
    osm3s := { copyright := "The data included in this document is from www.openstreetmap.org.",
               timestamp_osm_base := "2023-01-01T00:00:00Z" },
    version := mkRat 6 10 }

/-! ## Theorems -/

/-- Once the sender has been taken, every further callback invocation
leaves the channel state unchanged. -/
theorem foldl_stepCallback_settled (events : List CallbackEvent)
    (st : ChannelState) (h : st.senderAvailable = false) :
    events.foldl stepCallback st = st := by
  induction events with
  | nil => rfl
  | cons e rest ih => simp [List.foldl_cons, stepCallback, h, ih]

/-- The first callback invocation settles the channel with its payload;
the remaining invocations are no-ops. -/
theorem runCallbacks_cons (e : CallbackEvent) (rest : List CallbackEvent) :
    runCallbacks (e :: rest) = ⟨false, some (callbackPayload e)⟩ := by
  show (e :: rest).foldl stepCallback initChannel = _
  rw [List.foldl_cons]
  exact foldl_stepCallback_settled rest _ rfl

/-- C1: for every sequence of success/error callback invocations within
one `fetch_bathrooms` call, the channel value the awaiting side observes
(`receiver.await` reads `(runCallbacks events).sent`) equals the payload
of the first callback that fired, and every later invocation has no
observable effect: the state after the whole sequence equals the state
after the first invocation alone. -/
theorem settlement_first_callback_wins (e : CallbackEvent)
    (rest : List CallbackEvent) :
    runCallbacks (e :: rest) = runCallbacks [e] ∧
    (runCallbacks (e :: rest)).sent = some (callbackPayload e) := by
  rw [runCallbacks_cons, runCallbacks_cons]
  exact ⟨rfl, rfl⟩

/-- C8: every device-reported error — whatever its code (permission
denial 1, position unavailable 2, timeout 3, or anything else) — settles
the resolution with the one collapsed failure
`BathroomError.FetchBathroomsFailed`, and the resulting channel state
does not depend on which device error occurred. -/
theorem device_error_collapses (code code2 : Nat)
    (rest : List CallbackEvent) :
    (runCallbacks (.deviceError code :: rest)).sent =
      some (.error .FetchBathroomsFailed) ∧
    runCallbacks (.deviceError code :: rest) =
      runCallbacks (.deviceError code2 :: rest) := by
  rw [runCallbacks_cons, runCallbacks_cons]
  exact ⟨rfl, rfl⟩

/-- C2: if location resolution settles with a failure `e`, then
`fetch_bathrooms` returns `Err e` — with `e` the single collapsed
`FetchBathroomsFailed` kind — and the request list is empty: the network
stage is never reached. -/
theorem short_circuit_on_location_failure (render : ℚ → String)
    (env : GeoEnvironment) (e : BathroomError)
    (hw : env.windowPresent = true) (hg : env.geolocationAvailable = true)
    (hr : env.registrationOk = true)
    (hsent : (runCallbacks env.events).sent = some (.error e)) :
    fetch_bathrooms render env = ⟨.err e, []⟩ := by
  simp [fetch_bathrooms, hw, hg, hr, hsent]

/-- Witness for C2: in the environment where the device reports error
code 1, `fetch_bathrooms` returns the error outcome and issued zero
network requests. -/
theorem short_circuit_on_location_failure_witness :
    fetch_bathrooms renderRat deviceErrorEnv =
      ⟨.err .FetchBathroomsFailed, []⟩ :=
  short_circuit_on_location_failure renderRat deviceErrorEnv
    .FetchBathroomsFailed rfl rfl rfl rfl

/-- C9: the error channel of `fetch_bathrooms` has exactly one
inhabitant: whenever the call returns an error value `e`, that value is
`FetchBathroomsFailed`, its display text is "Failed to fetch
bathrooms.", and indeed every value of `BathroomError` whatsoever equals
`FetchBathroomsFailed` — so no caller can distinguish failure origins by
the returned error value. -/
theorem single_error_inhabitant (render : ℚ → String)
    (env : GeoEnvironment) (e : BathroomError)
    (h : (fetch_bathrooms render env).outcome = .err e) :
    e = .FetchBathroomsFailed ∧
    e.display = "Failed to fetch bathrooms." ∧
    ∀ e2 : BathroomError, e2 = .FetchBathroomsFailed := by
  cases e
  exact ⟨rfl, rfl, fun e2 => by cases e2; rfl⟩

/-- Witness for C9: applied to the device-error environment, where the
call does return an error value. -/
theorem single_error_inhabitant_witness :
    BathroomError.FetchBathroomsFailed = .FetchBathroomsFailed ∧
    BathroomError.display .FetchBathroomsFailed =
      "Failed to fetch bathrooms." ∧
    ∀ e2 : BathroomError, e2 = .FetchBathroomsFailed :=
  single_error_inhabitant renderRat deviceErrorEnv .FetchBathroomsFailed rfl

/-- Counterexample to C4: in an environment whose navigator lacks the
geolocation capability, `fetch_bathrooms` panics synchronously at
`navigator.geolocation().unwrap()` — it does not resolve with any
`Failure` outcome delivered through the return value. -/
theorem unsupported_capability_cex :
    fetch_bathrooms renderRat noGeolocationEnv =
      ⟨.crashed "geolocation", []⟩ ∧
    (fetch_bathrooms renderRat noGeolocationEnv).outcome ≠
      .err .FetchBathroomsFailed := by
  exact ⟨rfl, by decide⟩

/-- C4 as amended: when the geolocation capability is absent, the call
panics synchronously at `navigator.geolocation().unwrap()` (no network
request is issued), and no `Unsupported` error kind exists — the error
type has `FetchBathroomsFailed` as its only value. -/
theorem unsupported_capability_panics (render : ℚ → String)
    (env : GeoEnvironment) (hw : env.windowPresent = true)
    (hg : env.geolocationAvailable = false) :
    fetch_bathrooms render env = ⟨.crashed "geolocation", []⟩ ∧
    ∀ e : BathroomError, e = .FetchBathroomsFailed := by
  refine ⟨by simp [fetch_bathrooms, hw, hg], fun e => by cases e; rfl⟩

/-- Witness for the amended C4, at the concrete capability-free
environment. -/
theorem unsupported_capability_panics_witness :
    fetch_bathrooms renderRat noGeolocationEnv =
      ⟨.crashed "geolocation", []⟩ ∧
    ∀ e : BathroomError, e = .FetchBathroomsFailed :=
  unsupported_capability_panics renderRat noGeolocationEnv rfl rfl

/-- Counterexample to C7: in an environment where registering the
position request fails, `fetch_bathrooms` panics synchronously at
`get_current_position_with_error_callback(..).unwrap()` instead of
delivering the failure through the settled outcome. -/
theorem registration_throws_cex :
    fetch_bathrooms renderRat registrationFailEnv =
      ⟨.crashed "get_current_position_with_error_callback", []⟩ ∧
    (fetch_bathrooms renderRat registrationFailEnv).outcome ≠
      .err .FetchBathroomsFailed := by
  exact ⟨rfl, by decide⟩

/-- C7 as amended: registration panics synchronously whenever the
window, the geolocation accessor, or the registration call itself fails;
in those environments no failure is ever delivered through the returned
error value (the call crashes before the channel is read). -/
theorem registration_panic_on_failed_setup (render : ℚ → String)
    (env : GeoEnvironment)
    (h : env.windowPresent = false ∨ env.geolocationAvailable = false ∨
      env.registrationOk = false) :
    (∃ msg, fetch_bathrooms render env = ⟨.crashed msg, []⟩) ∧
    ∀ e : BathroomError, (fetch_bathrooms render env).outcome ≠ .err e := by
  have key : ∃ msg, fetch_bathrooms render env = ⟨.crashed msg, []⟩ := by
    cases hw : env.windowPresent with
    | false => exact ⟨"window", by simp [fetch_bathrooms, hw]⟩
    | true =>
      cases hg : env.geolocationAvailable with
      | false => exact ⟨"geolocation", by simp [fetch_bathrooms, hw, hg]⟩
      | true =>
        cases hr : env.registrationOk with
        | false =>
          exact ⟨"get_current_position_with_error_callback",
            by simp [fetch_bathrooms, hw, hg, hr]⟩
        | true => simp [hw, hg, hr] at h
  obtain ⟨msg, hmsg⟩ := key
  refine ⟨⟨msg, hmsg⟩, fun e => ?_⟩
  rw [hmsg]
  intro hcontra
  exact FetchOutcome.noConfusion hcontra

/-- Witness for the amended C7, at the concrete environment whose
registration call fails. -/
theorem registration_panic_on_failed_setup_witness :
    (∃ msg, fetch_bathrooms renderRat registrationFailEnv =
      ⟨.crashed msg, []⟩) ∧
    ∀ e : BathroomError,
      (fetch_bathrooms renderRat registrationFailEnv).outcome ≠ .err e :=
  registration_panic_on_failed_setup renderRat registrationFailEnv
    (Or.inr (Or.inr rfl))

/-- Counterexample to C3: with resolved coordinates and a failing
network transport, `fetch_bathrooms` panics at `.send().await.unwrap()`
— the outcome is an uncaught crash, not the returned error value the
claim requires. -/
theorem network_failure_panics_cex :
    (fetch_bathrooms renderRat transportFailEnv).outcome =
      .crashed "send" ∧
    (fetch_bathrooms renderRat transportFailEnv).outcome ≠
      .err .FetchBathroomsFailed := by
  exact ⟨by decide, by decide⟩

/-- C3 as amended: once the network stage is reached, a transport error
panics at the `send` unwrap, a body that fails to deserialize panics at
the `json` unwrap (the HTTP status is never inspected), a fully parsed
body yields the success outcome, and in no case is a failure delivered
through the returned error value — in particular no partially populated
element sequence can be returned, since success carries exactly the full
parse of the body. -/
theorem network_failure_panics (render : ℚ → String)
    (env : GeoEnvironment) (lat lon : ℚ)
    (hw : env.windowPresent = true) (hg : env.geolocationAvailable = true)
    (hr : env.registrationOk = true)
    (hsent : (runCallbacks env.events).sent = some (.ok (lat, lon))) :
    (fetch_bathrooms render env).outcome =
      (match env.network with
       | .transportError => .crashed "send"
       | .response _status body =>
         match parseOverpassResponse body with
         | none => .crashed "json"
         | some r => .ok r) ∧
    ∀ e : BathroomError, (fetch_bathrooms render env).outcome ≠ .err e := by
  refine ⟨?_, fun e => ?_⟩
  · cases hnet : env.network with
    | transportError => simp [fetch_bathrooms, hw, hg, hr, hsent, hnet]
    | response status body =>
      cases hp : parseOverpassResponse body <;>
        simp [fetch_bathrooms, hw, hg, hr, hsent, hnet, hp]
  · cases hnet : env.network with
    | transportError => simp [fetch_bathrooms, hw, hg, hr, hsent, hnet]
    | response status body =>
      cases hp : parseOverpassResponse body <;>
        simp [fetch_bathrooms, hw, hg, hr, hsent, hnet, hp]

/-- Witness for the amended C3, at the transport-failure environment. -/
theorem network_failure_panics_witness :
    (fetch_bathrooms renderRat transportFailEnv).outcome =
      (match transportFailEnv.network with
       | .transportError => .crashed "send"
       | .response _status body =>
         match parseOverpassResponse body with
         | none => .crashed "json"
         | some r => .ok r) ∧
    ∀ e : BathroomError,
      (fetch_bathrooms renderRat transportFailEnv).outcome ≠ .err e :=
  network_failure_panics renderRat transportFailEnv (mkRat 1234 100)
    (mkRat 5678 100) rfl rfl rfl rfl

/-- C5: whenever the channel settles with coordinates `(lat, lon)`, the
single network request `fetch_bathrooms` issues is exactly the Overpass
URL interpolating the renderings of those coordinates, and for every
rendering the URL decomposes around them with the fixed radius `2000`
and the fixed tag filter `"amenity"="toilets"` — for arbitrary
coordinates, negative and fractional included. -/
theorem query_construction (render : ℚ → String) (env : GeoEnvironment)
    (lat lon : ℚ)
    (hw : env.windowPresent = true) (hg : env.geolocationAvailable = true)
    (hr : env.registrationOk = true)
    (hsent : (runCallbacks env.events).sent = some (.ok (lat, lon))) :
    (fetch_bathrooms render env).requests =
      [buildQuery (render lat) (render lon)] ∧
    ∀ s t : String,
      buildQuery s t =
        "https://overpass-api.de/api/interpreter?data=[out:json];node[\"amenity\"=\"toilets\"](around:2000," ++
          s ++ "," ++ t ++ ");out;" ∧
      ("(around:2000," ++ s ++ "," ++ t ++ ")").data <:+:
        (buildQuery s t).data ∧
      ("\"amenity\"=\"toilets\"").data <:+: (buildQuery s t).data := by
  refine ⟨?_, fun s t => ⟨rfl, ?_, ?_⟩⟩
  · cases hnet : env.network with
    | transportError => simp [fetch_bathrooms, hw, hg, hr, hsent, hnet]
    | response status body =>
      cases hp : parseOverpassResponse body <;>
        simp [fetch_bathrooms, hw, hg, hr, hsent, hnet, hp]
  · refine ⟨("https://overpass-api.de/api/interpreter?data=[out:json];node[\"amenity\"=\"toilets\"]").data,
      (";out;").data, ?_⟩
    have hsplit :
        ("https://overpass-api.de/api/interpreter?data=[out:json];node[\"amenity\"=\"toilets\"]" : String) ++
          "(around:2000," =
        "https://overpass-api.de/api/interpreter?data=[out:json];node[\"amenity\"=\"toilets\"](around:2000," := by
      decide
    simp only [buildQuery, ← hsplit, String.data_append, List.append_assoc]
    have hclose : (")" : String) ++ ";out;" = ");out;" := by decide
    simp [← hclose, String.data_append]
  · refine ⟨("https://overpass-api.de/api/interpreter?data=[out:json];node[" : String).data,
      ("](around:2000," ++ s ++ "," ++ t ++ ");out;").data, ?_⟩
    have hsplit :
        ("https://overpass-api.de/api/interpreter?data=[out:json];node[" : String) ++
          "\"amenity\"=\"toilets\"" ++ "](around:2000," =
        "https://overpass-api.de/api/interpreter?data=[out:json];node[\"amenity\"=\"toilets\"](around:2000," := by
      decide
    simp only [buildQuery, ← hsplit, String.data_append, List.append_assoc]

/-- Witness for C5, at the environment whose device reports the negative
fractional coordinates `(-12.5, 56.78)`. -/
theorem query_construction_witness :
    (fetch_bathrooms renderRat negativeCoordEnv).requests =
      [buildQuery (renderRat (mkRat (-125) 10)) (renderRat (mkRat 5678 100))] :=
  (query_construction renderRat negativeCoordEnv (mkRat (-125) 10)
    (mkRat 5678 100) rfl rfl rfl rfl).1

/-- Counterexample to C6: on the stub response whose two elements are
exactly as the claim states them — `\x7bid:1, lat:12.341, lon:56.781,
tags:\x7bamenity:"toilets"\x7d\x7d` and `\x7bid:2, lat:12.342,
lon:56.782, tags:\x7b\x7d\x7d`, with the full top-level envelope present
— deserialization fails (each element lacks the required `"type"`
field), so `fetch_bathrooms` panics at the `json` unwrap instead of
returning the `Ready` sequence. -/
theorem happy_path_stub_cex :
    parseOverpassResponse stubDoc = none ∧
    (fetch_bathrooms renderRat stubEnv).outcome = .crashed "json" := by
  exact ⟨rfl, by decide⟩

/-- C6 as amended: with a string `"type"` field added to each stub
element (the schema requires it), `fetch_bathrooms` on coordinates
`(12.34, 56.78)` returns the success outcome carrying the elements with
ids 1 and 2 in exactly the response order, via the single Overpass
request. -/
theorem happy_path_order_preserved :
    fetch_bathrooms renderRat stubEnvTyped =
      ⟨.ok stubResponseParsed,
       [buildQuery (renderRat (mkRat 1234 100)) (renderRat (mkRat 5678 100))]⟩ ∧
    stubResponseParsed.elements.map Element.id = [1, 2] := by
  exact ⟨by decide, rfl⟩

/-- Deserializing a string succeeds only on a JSON string. -/
theorem parseString_inv (j : Json) (s : String)
    (h : parseString j = some s) : j = .str s := by
  cases j <;> simp_all [parseString]

/-- Deserializing an `f64` succeeds only on a JSON number. -/
theorem parseF64_inv (j : Json) (q : ℚ) (h : parseF64 j = some q) :
    j = .num q := by
  cases j <;> simp_all [parseF64]

/-- A JSON array parse succeeds only on an array. -/
theorem parseJsonArray_inv (j : Json) (xs : List Json)
    (h : parseJsonArray j = some xs) : j = .arr xs := by
  cases j <;> simp_all [parseJsonArray]

/-- A successfully deserialized element came from a JSON value whose
`"type"` field is the string stored in `type_field`. -/
theorem parseElement_type_field (j : Json) (el : Element)
    (h : parseElement j = some el) :
    j.getField "type" = some (.str el.type_field) := by
  simp only [parseElement, bind, Option.bind_eq_some, Option.pure_def,
    Option.some.injEq] at h
  obtain ⟨idJ, hidJ, id, hid, latJ, hlatJ, lat, hlat, lonJ, hlonJ, lon, hlon,
    tagsJ, htagsJ, tags, htags, typeJ, htypeJ, tf, htf, hel⟩ := h
  subst hel
  rw [htypeJ, parseString_inv typeJ tf htf]

/-- If the element list deserializes, every entry deserializes. -/
theorem mapM_parseElement_mem {elems : List Json} {els : List Element}
    (h : elems.mapM parseElement = some els) :
    ∀ je ∈ elems, ∃ el, parseElement je = some el := by
  induction elems generalizing els with
  | nil => intro je hje; cases hje
  | cons x xs ih =>
    rw [List.mapM_cons] at h
    simp only [bind, Option.bind_eq_some, Option.pure_def,
      Option.some.injEq] at h
    obtain ⟨el, hel, l, hl, _⟩ := h
    intro je hje
    rcases List.mem_cons.mp hje with hje | hje
    · exact ⟨el, hje ▸ hel⟩
    · exact ih hl je hje

/-- A successfully deserialized `Osm3s` came from a JSON value carrying
string `"copyright"` and `"timestamp_osm_base"` fields. -/
theorem parseOsm3s_fields (j : Json) (o : Osm3s)
    (h : parseOsm3s j = some o) :
    j.getField "copyright" = some (.str o.copyright) ∧
    j.getField "timestamp_osm_base" = some (.str o.timestamp_osm_base) := by
  simp only [parseOsm3s, bind, Option.bind_eq_some, Option.pure_def,
    Option.some.injEq] at h
  obtain ⟨cJ, hcJ, c, hc, tsJ, htsJ, ts, hts, ho⟩ := h
  subst ho
  exact ⟨by rw [hcJ, parseString_inv cJ c hc],
    by rw [htsJ, parseString_inv tsJ ts hts]⟩

/-- C10: a document that deserializes as an `OverpassResponse` carries a
string `"generator"`, an `"osm3s"` object with string `"copyright"` and
`"timestamp_osm_base"`, a numeric `"version"`, and an `"elements"` array
each of whose entries carries a string `"type"` field — so a document
missing any of these fails to parse (and `fetch_bathrooms` panics),
even when id, lat, lon and tags are present on every element. -/
theorem schema_requires_envelope (d : Json) (r : OverpassResponse)
    (h : parseOverpassResponse d = some r) :
    d.getField "generator" = some (.str r.generator) ∧
    (∃ o, d.getField "osm3s" = some o ∧
      o.getField "copyright" = some (.str r.osm3s.copyright) ∧
      o.getField "timestamp_osm_base" =
        some (.str r.osm3s.timestamp_osm_base)) ∧
    d.getField "version" = some (.num r.version) ∧
    (∃ elems, d.getField "elements" = some (.arr elems) ∧
      ∀ je ∈ elems, ∃ s, je.getField "type" = some (.str s)) := by
  simp only [parseOverpassResponse, bind, Option.bind_eq_some,
    Option.pure_def, Option.some.injEq] at h
  obtain ⟨elementsJ, helJ, elems, harr, els, hmapm, gJ, hgJ, g, hg,
    oJ, hoJ, o, ho, vJ, hvJ, v, hv, hr⟩ := h
  subst hr
  refine ⟨by rw [hgJ, parseString_inv gJ g hg], ⟨oJ, hoJ, ?_, ?_⟩,
    by rw [hvJ, parseF64_inv vJ v hv], elems, ?_, ?_⟩
  · exact (parseOsm3s_fields oJ o ho).1
  · exact (parseOsm3s_fields oJ o ho).2
  · rw [helJ, parseJsonArray_inv elementsJ elems harr]
  · intro je hje
    obtain ⟨el, hel⟩ := mapM_parseElement_mem hmapm je hje
    exact ⟨el.type_field, parseElement_type_field je el hel⟩

/-- Witness for C10, at the typed stub document, which deserializes to
`stubResponseParsed`. -/
theorem schema_requires_envelope_witness :
    stubDocTyped.getField "generator" =
      some (.str stubResponseParsed.generator) ∧
    (∃ o, stubDocTyped.getField "osm3s" = some o ∧
      o.getField "copyright" = some (.str stubResponseParsed.osm3s.copyright) ∧
      o.getField "timestamp_osm_base" =
        some (.str stubResponseParsed.osm3s.timestamp_osm_base)) ∧
    stubDocTyped.getField "version" =
      some (.num stubResponseParsed.version) ∧
    (∃ elems, stubDocTyped.getField "elements" = some (.arr elems) ∧
      ∀ je ∈ elems, ∃ s, je.getField "type" = some (.str s)) :=
  schema_requires_envelope stubDocTyped stubResponseParsed (by decide)

end LeptosGhpages
